import Mathlib

/-!
Shallow embedding of the CARAT relocation runtime
(`src/aspace/carat/port-runtime/c/patching.c`) and proofs about the
properties of `nk_carat_move_allocation` and its helper passes.

Addresses and register values are modelled as `Nat`; memory is a total
function from addresses to stored values, one cell per addressable slot.
The allocation directory is an association list from base address to
tracking record.  Helper routines that patching.c calls but whose bodies
live outside the ported runtime (the aliasing engine, the directory
map operations, the scheduler bracket, libc `memmove`) are modelled from
their specified contracts; every function defined in patching.c itself is
translated line by line.
-/

namespace CaratMove

/-- Modelled from the spec: the Aliasing/Offset Engine `doesItAlias`,
declared by the runtime headers but not part of the ported file.  Given an
allocation base `allocAddr`, its `len`, and a candidate value `escapeVal`,
it returns the nonnegative offset `escapeVal - allocAddr` when
`allocAddr <= escapeVal < allocAddr + len`, and the negative sentinel `-1`
otherwise. -/
def doesItAlias (allocAddr len escapeVal : Nat) : Int :=
  if allocAddr ≤ escapeVal ∧ escapeVal < allocAddr + len then
    (escapeVal : Int) - (allocAddr : Int)
  else
    -1

/-- The tracking record for one live allocation (`allocEntry` in the C
sources): current base address, length in cells, and the escape set,
modelled as the list of escape-slot addresses in iteration order. -/
structure AllocEntry where
  pointer : Nat
  length : Nat
  allocToEscapeMap : List Nat
  deriving DecidableEq

/-- Loop body of `carat_patch_escapes`: the `nk_slist_foreach` over the
escape set.  For each escape address `e` the stored value is read, tested
with `doesItAlias`, and rewritten to `allocationTarget + offset` when the
offset is nonnegative (patching.c lines 8-14). -/
def patchEscapesGo (base len tgt : Nat) : List Nat → (Nat → Nat) → (Nat → Nat)
  | [], mem => mem
  | e :: es, mem =>
    let v := mem e
    let off := doesItAlias base len v
    let mem1 := if 0 ≤ off then Function.update mem e (((tgt : Int) + off).toNat) else mem
    patchEscapesGo base len tgt es mem1

/-- `carat_patch_escapes` from patching.c: walks the entry's escape set
rewriting aliasing slots, and unconditionally returns 0. -/
def carat_patch_escapes (entry : AllocEntry) (allocationTarget : Nat)
    (mem : Nat → Nat) : (Nat → Nat) × Int :=
  (patchEscapesGo entry.pointer entry.length allocationTarget
    entry.allocToEscapeMap mem, 0)

/-- Modelled from the spec: the saved general-purpose register snapshot of a
suspended thread (`struct nk_regs`, declared outside the ported file).  The
fifteen registers patched by `handle_thread` plus the stack pointer and
instruction pointer, which the pass must leave alone. -/
structure Regs where
  r15 : Nat
  r14 : Nat
  r13 : Nat
  r12 : Nat
  r11 : Nat
  r10 : Nat
  r9 : Nat
  r8 : Nat
  rbp : Nat
  rdi : Nat
  rsi : Nat
  rdx : Nat
  rcx : Nat
  rbx : Nat
  rax : Nat
  rsp : Nat
  rip : Nat
  deriving DecidableEq

/-- The transient move request (`struct move_alloc_state`, declared in the
runtime header): source base, target base, length from the looked-up entry,
and the shared failure flag. -/
structure move_alloc_state where
  allocationToMove : Nat
  allocationTarget : Nat
  length : Nat
  failed : Bool
  deriving DecidableEq

/-- The `HANDLE(reg)` macro body of patching.c lines 40-45: if the register
value lies in `[allocationToMove, allocationToMove + length)` it is replaced
by `allocationTarget + offset`, otherwise kept. -/
def HANDLE (src tgt len v : Nat) : Nat :=
  if src ≤ v ∧ v < src + len then tgt + (v - src) else v

/-- `handle_thread` from patching.c lines 31-64: applies `HANDLE` to the
fifteen tracked general-purpose registers of one thread's snapshot; `rsp`
and `rip` are not handled.  The body reads the shared move state and never
writes it, so the state (failure flag included) is returned unchanged. -/
def handle_thread (st : move_alloc_state) (r : Regs) : Regs × move_alloc_state :=
  (⟨HANDLE st.allocationToMove st.allocationTarget st.length r.r15,
    HANDLE st.allocationToMove st.allocationTarget st.length r.r14,
    HANDLE st.allocationToMove st.allocationTarget st.length r.r13,
    HANDLE st.allocationToMove st.allocationTarget st.length r.r12,
    HANDLE st.allocationToMove st.allocationTarget st.length r.r11,
    HANDLE st.allocationToMove st.allocationTarget st.length r.r10,
    HANDLE st.allocationToMove st.allocationTarget st.length r.r9,
    HANDLE st.allocationToMove st.allocationTarget st.length r.r8,
    HANDLE st.allocationToMove st.allocationTarget st.length r.rbp,
    HANDLE st.allocationToMove st.allocationTarget st.length r.rdi,
    HANDLE st.allocationToMove st.allocationTarget st.length r.rsi,
    HANDLE st.allocationToMove st.allocationTarget st.length r.rdx,
    HANDLE st.allocationToMove st.allocationTarget st.length r.rcx,
    HANDLE st.allocationToMove st.allocationTarget st.length r.rbx,
    HANDLE st.allocationToMove st.allocationTarget st.length r.rax,
    r.rsp, r.rip⟩, st)

/-- Modelled from the spec: `nk_sched_map_threads(-1, handle_thread, &state)`
invokes `handle_thread` once per live thread, threading the shared move
state through the calls.  Returns the updated snapshots and final state. -/
def runThreads : List Regs → move_alloc_state → List Regs × move_alloc_state
  | [], st => ([], st)
  | r :: rs, st =>
    let p := handle_thread st r
    let q := runThreads rs p.2
    (p.1 :: q.1, q.2)

/-- The allocation directory: association list from base address to entry. -/
def Dir := List (Nat × AllocEntry)

/-- Modelled from the spec: removing the directory entry keyed at `k`
(`nk_slist_remove` on the allocation map, whose implementation is outside
the ported file; the Directory is specified as a mapping keyed by base). -/
def nk_slist_remove_key (d : List (Nat × AllocEntry)) (k : Nat) :
    List (Nat × AllocEntry) :=
  d.filter (fun p => p.1 != k)

/-- Modelled from the spec: inserting a pair keyed at `k` into the directory
mapping (`nk_slist_add` of a freshly built `NK_PAIR`): the mapping
afterwards takes `k` to `e`. -/
def nk_slist_add_pair (d : List (Nat × AllocEntry)) (k : Nat) (e : AllocEntry) :
    List (Nat × AllocEntry) :=
  (k, e) :: nk_slist_remove_key d k

/-- Modelled from the spec: `findAllocEntry`, the exact-base directory
lookup declared outside the ported file. -/
def findAllocEntry (d : List (Nat × AllocEntry)) (a : Nat) : Option AllocEntry :=
  (d.find? (fun p => p.1 == a)).map Prod.snd

/-- Number of directory entries keyed at `k`. -/
def dirCountKey (d : List (Nat × AllocEntry)) (k : Nat) : Nat :=
  (d.filter (fun p => p.1 == k)).length

/-- `carat_update_entry` from patching.c lines 19-29: build a new entry at
the target base carrying the old length and the old escape set, add the new
pair to the allocation map, then remove the pair keyed at the old base —
in that order, exactly as the source does. -/
def carat_update_entry (d : List (Nat × AllocEntry)) (entry : AllocEntry)
    (allocationTarget : Nat) : List (Nat × AllocEntry) :=
  nk_slist_remove_key
    (nk_slist_add_pair d allocationTarget
      ⟨allocationTarget, entry.length, entry.allocToEscapeMap⟩)
    entry.pointer

/-- Modelled from the spec: libc `memmove dest src n` — the cell at address
`a` in `[dest, dest + n)` receives the old value of `src + (a - dest)`,
every other cell keeps its value.  This is the overlap-safe (memmove, not
memcpy) semantics, stated directly on the pre-call memory. -/
def memmove (dest src n : Nat) (mem : Nat → Nat) : Nat → Nat :=
  fun a => if dest ≤ a ∧ a < dest + n then mem (src + (a - dest)) else mem a

/-- The world visible to the relocation: memory cells, the allocation
directory, and the saved register snapshots of all live threads. -/
structure Sys where
  mem : Nat → Nat
  dir : List (Nat × AllocEntry)
  threads : List Regs

/-- Tail of `nk_carat_move_allocation` after the thread pass (patching.c
lines 91-109): observe the shared failure flag; on failure go to `out_bad`
(return -1, one `nk_sched_start_world`); otherwise run the `memmove` —
with destination `allocationToMove` and source `allocationTarget`, exactly
as the C call reads — update the directory, and return 0 through
`out_good` (one `nk_sched_start_world`).  The `Nat` component of the
result counts the `nk_sched_start_world` calls on the path taken. -/
def moveAllocAfterThreads (s2 : Sys) (entry : AllocEntry)
    (allocationToMove allocationTarget : Nat) (failed : Bool) :
    Int × Sys × Nat :=
  if failed then (-1, s2, 1)
  else
    let s3 : Sys := { s2 with
      mem := memmove allocationToMove allocationTarget entry.length s2.mem }
    let s4 : Sys := { s3 with
      dir := carat_update_entry s3.dir entry allocationTarget }
    (0, s4, 1)

/-- Body of `nk_carat_move_allocation` once the world is stopped
(patching.c lines 75-109): directory lookup (abort through `out_bad` when
absent), escape patch pass (abort when it returns 1), thread pass, then the
tail above.  The `Nat` component counts `nk_sched_start_world` calls. -/
def moveAllocationSteps (s : Sys) (allocationToMove allocationTarget : Nat) :
    Int × Sys × Nat :=
  match findAllocEntry s.dir allocationToMove with
  | none => (-1, s, 1)
  | some entry =>
    let pe := carat_patch_escapes entry allocationTarget s.mem
    let s1 : Sys := { s with mem := pe.1 }
    if pe.2 = 1 then (-1, s1, 1)
    else
      let st0 : move_alloc_state :=
        ⟨allocationToMove, allocationTarget, entry.length, false⟩
      let tp := runThreads s1.threads st0
      let s2 : Sys := { s1 with threads := tp.1 }
      moveAllocAfterThreads s2 entry allocationToMove allocationTarget tp.2.failed

/-- `nk_carat_move_allocation` from patching.c lines 66-111.  `stopWorldOk`
abstracts the return of `nk_sched_stop_world` (true when the world was
stopped); when it fails the function returns -1 without touching anything
and without calling `nk_sched_start_world` (count 0). -/
def nk_carat_move_allocation (stopWorldOk : Bool) (s : Sys)
    (allocationToMove allocationTarget : Nat) : Int × Sys × Nat :=
  if stopWorldOk then moveAllocationSteps s allocationToMove allocationTarget
  else (-1, s, 0)

/-! Helper lemmas about the embedded operations. -/

/-- The aliasing test succeeds exactly on the half-open range. -/
lemma doesItAlias_nonneg_iff (b len v : Nat) :
    0 ≤ doesItAlias b len v ↔ (b ≤ v ∧ v < b + len) := by
  unfold doesItAlias
  split_ifs with h <;> omega

/-- The patched value written for an aliasing slot is `tgt + (v - b)`. -/
lemma patch_value_eq (b len tgt v : Nat) (h : b ≤ v ∧ v < b + len) :
    (((tgt : Int) + doesItAlias b len v)).toNat = tgt + (v - b) := by
  unfold doesItAlias
  rw [if_pos h]
  omega

/-- Slots outside the iterated escape list are never written by the pass. -/
lemma patchEscapesGo_not_mem (b len tgt : Nat) :
    ∀ (es : List Nat) (mem : Nat → Nat) (a : Nat), a ∉ es →
      patchEscapesGo b len tgt es mem a = mem a := by
  intro es
  induction es with
  | nil => intro mem a _; rfl
  | cons e es ih =>
    intro mem a ha
    have hae : a ≠ e := fun h => ha (h ▸ List.mem_cons_self e es)
    have haes : a ∉ es := fun h => ha (List.mem_cons_of_mem e h)
    show patchEscapesGo b len tgt es _ a = mem a
    rw [ih _ a haes]
    split_ifs with h
    · exact Function.update_noteq hae _ mem
    · rfl

/-- Escape-pass characterisation of a slot in a duplicate-free list: the
slot ends with the rewritten value exactly when its original value aliased
the source range. -/
lemma patchEscapesGo_mem (b len tgt : Nat) :
    ∀ (es : List Nat) (mem : Nat → Nat) (e : Nat), es.Nodup → e ∈ es →
      patchEscapesGo b len tgt es mem e =
        if b ≤ mem e ∧ mem e < b + len then tgt + (mem e - b) else mem e := by
  intro es
  induction es with
  | nil => intro mem e _ he; exact absurd he (List.not_mem_nil e)
  | cons a es ih =>
    intro mem e hnd he
    have hnd' : es.Nodup := (List.nodup_cons.mp hnd).2
    have hna : a ∉ es := (List.nodup_cons.mp hnd).1
    rcases List.mem_cons.mp he with he | he
    · subst he
      show patchEscapesGo b len tgt es _ e = _
      rw [patchEscapesGo_not_mem b len tgt es _ e hna]
      split_ifs with hoff hal hal
      · rw [Function.update_same]
        exact patch_value_eq b len tgt (mem e) hal
      · exact absurd ((doesItAlias_nonneg_iff b len (mem e)).mp hoff) hal
      · exact absurd ((doesItAlias_nonneg_iff b len (mem e)).mpr hal) hoff
      · rfl
    · have hea : e ≠ a := fun h => hna (h ▸ he)
      show patchEscapesGo b len tgt es
        (if 0 ≤ doesItAlias b len (mem a)
         then Function.update mem a (((tgt : Int) + doesItAlias b len (mem a)).toNat)
         else mem) e = _
      have hmem1 : (if 0 ≤ doesItAlias b len (mem a)
          then Function.update mem a (((tgt : Int) + doesItAlias b len (mem a)).toNat)
          else mem) e = mem e := by
        split_ifs with h
        · exact Function.update_noteq hea _ mem
        · rfl
      rw [ih _ e hnd' he, hmem1]

/-- Per-slot contract of `carat_patch_escapes` over a duplicate-free escape
set. -/
lemma carat_patch_escapes_slot (entry : AllocEntry) (tgt : Nat)
    (mem : Nat → Nat) (e : Nat) (hnd : entry.allocToEscapeMap.Nodup)
    (he : e ∈ entry.allocToEscapeMap) :
    (carat_patch_escapes entry tgt mem).1 e =
      if entry.pointer ≤ mem e ∧ mem e < entry.pointer + entry.length
      then tgt + (mem e - entry.pointer) else mem e :=
  patchEscapesGo_mem entry.pointer entry.length tgt entry.allocToEscapeMap mem e hnd he

/-- `handle_thread` hands the shared move state back untouched, so the
thread pass leaves the state (failure flag included) exactly as it began. -/
lemma runThreads_state (ts : List Regs) (st : move_alloc_state) :
    (runThreads ts st).2 = st := by
  induction ts with
  | nil => rfl
  | cons r rs ih => simpa [runThreads, handle_thread] using ih

/-- The thread pass maps `handle_thread` over every snapshot. -/
lemma runThreads_regs (ts : List Regs) (st : move_alloc_state) :
    (runThreads ts st).1 = ts.map (fun r => (handle_thread st r).1) := by
  induction ts with
  | nil => rfl
  | cons r rs ih => simpa [runThreads, handle_thread] using ih

/-- Removing a key leaves no entry to find at that key. -/
lemma findAllocEntry_remove_self (d : List (Nat × AllocEntry)) (k : Nat) :
    findAllocEntry (nk_slist_remove_key d k) k = none := by
  unfold findAllocEntry nk_slist_remove_key
  cases hf : (d.filter (fun p => p.1 != k)).find? (fun p => p.1 == k) with
  | none => rfl
  | some x =>
    exfalso
    have h1 := List.find?_some hf
    have h2 := List.of_mem_filter (List.mem_of_find?_eq_some hf)
    simp only [beq_iff_eq] at h1
    simp only [bne_iff_ne] at h2
    exact h2 h1

/-- Removing a key empties the count at that key. -/
lemma dirCountKey_remove_self (d : List (Nat × AllocEntry)) (k : Nat) :
    dirCountKey (nk_slist_remove_key d k) k = 0 := by
  unfold dirCountKey nk_slist_remove_key
  rw [List.filter_filter, List.length_eq_zero, List.filter_eq_nil_iff]
  intro a _
  by_cases h : a.1 = k <;> simp [h]

/-- Removing one key does not change the count at a different key. -/
lemma dirCountKey_remove_ne (d : List (Nat × AllocEntry)) (j k : Nat)
    (h : j ≠ k) :
    dirCountKey (nk_slist_remove_key d j) k = dirCountKey d k := by
  unfold dirCountKey nk_slist_remove_key
  rw [List.filter_filter]
  congr 1
  apply List.filter_congr
  intro a _
  by_cases h2 : a.1 = k
  · simp [h2, Ne.symm h]
  · simp [h2]

/-- Removing a key commutes over a cons pair carrying a different key. -/
lemma remove_key_cons_of_ne (p : Nat × AllocEntry) (d : List (Nat × AllocEntry))
    (k : Nat) (h : p.1 ≠ k) :
    nk_slist_remove_key (p :: d) k = p :: nk_slist_remove_key d k := by
  unfold nk_slist_remove_key
  rw [List.filter_cons, if_pos (by simp [h])]

/-- Lookup at the key of the head pair returns that pair's entry. -/
lemma findAllocEntry_cons_self (p : Nat × AllocEntry)
    (d : List (Nat × AllocEntry)) (k : Nat) (h : p.1 = k) :
    findAllocEntry (p :: d) k = some p.2 := by
  unfold findAllocEntry
  rw [List.find?_cons_of_pos _ (by simp [h])]
  rfl

/-- Counting at the key of the head pair adds one to the tail's count. -/
lemma dirCountKey_cons_self (p : Nat × AllocEntry)
    (d : List (Nat × AllocEntry)) (k : Nat) (h : p.1 = k) :
    dirCountKey (p :: d) k = dirCountKey d k + 1 := by
  unfold dirCountKey
  rw [List.filter_cons, if_pos (by simp [h]), List.length_cons]

/-- After `carat_update_entry` the old base keys nothing: the final removal
filters out every pair keyed at `entry.pointer`. -/
lemma carat_update_entry_find_old (d : List (Nat × AllocEntry))
    (entry : AllocEntry) (tgt : Nat) :
    findAllocEntry (carat_update_entry d entry tgt) entry.pointer = none :=
  findAllocEntry_remove_self _ entry.pointer

/-- When the old base differs from the target, `carat_update_entry` leaves
the new entry findable at the target base. -/
lemma carat_update_entry_find_new (d : List (Nat × AllocEntry))
    (entry : AllocEntry) (tgt : Nat) (h : entry.pointer ≠ tgt) :
    findAllocEntry (carat_update_entry d entry tgt) tgt =
      some ⟨tgt, entry.length, entry.allocToEscapeMap⟩ := by
  rw [carat_update_entry, nk_slist_add_pair,
    remove_key_cons_of_ne _ _ _ (Ne.symm h),
    findAllocEntry_cons_self _ _ _ rfl]

/-- When the old base differs from the target, `carat_update_entry` leaves
exactly one directory entry keyed at the target. -/
lemma carat_update_entry_count_new (d : List (Nat × AllocEntry))
    (entry : AllocEntry) (tgt : Nat) (h : entry.pointer ≠ tgt) :
    dirCountKey (carat_update_entry d entry tgt) tgt = 1 := by
  rw [carat_update_entry, nk_slist_add_pair,
    remove_key_cons_of_ne _ _ _ (Ne.symm h),
    dirCountKey_cons_self _ _ _ rfl,
    dirCountKey_remove_ne _ _ _ h, dirCountKey_remove_self]

/-- Full characterisation of a successful pass through
`nk_carat_move_allocation` once the lookup finds an entry: the escape pass
runs, every thread snapshot is patched, the `memmove` executes with
destination `src` and source `tgt` exactly as the C call is written, the
directory is re-keyed, the return value is 0 and `nk_sched_start_world`
runs once. -/
lemma move_success_eq (s : Sys) (src tgt : Nat) (entry : AllocEntry)
    (hfind : findAllocEntry s.dir src = some entry) :
    nk_carat_move_allocation true s src tgt =
      (0,
       ⟨memmove src tgt entry.length (carat_patch_escapes entry tgt s.mem).1,
        carat_update_entry s.dir entry tgt,
        (runThreads s.threads ⟨src, tgt, entry.length, false⟩).1⟩,
       1) := by
  unfold nk_carat_move_allocation moveAllocationSteps
  rw [if_pos rfl, hfind]
  simp only [carat_patch_escapes]
  rw [if_neg (by decide : ¬ ((0 : Int) = 1))]
  rw [moveAllocAfterThreads, runThreads_state]
  rfl

/-! Concrete worlds used as witnesses and failing inputs. -/

/-- Memory for the C1 failing input: cell 16 holds 7, cell 32 holds 5. -/
def memC1 : Nat → Nat := fun a => if a = 16 then 7 else if a = 32 then 5 else 0

/-- World for the C1 failing input: one tracked allocation of length 1 at
base 16, no escapes, no threads. -/
def sysC1 : Sys := ⟨memC1, [(16, ⟨16, 1, []⟩)], []⟩

/-- C1: the spec requires the bytes at the target range after a successful
move to equal the bytes that were at the source range; on the failing input
the call succeeds yet the target cell still holds its old value 5 while the
source cell held 7 — patching.c line 96 calls
memmove(allocationToMove, allocationTarget, length), destination and source
swapped, so the old source content is overwritten instead of copied out. -/
theorem c1_memmove_direction_code_bug :
    (nk_carat_move_allocation true sysC1 16 32).1 = 0 ∧
    memC1 16 = 7 ∧
    (nk_carat_move_allocation true sysC1 16 32).2.1.mem 32 = 5 ∧
    (nk_carat_move_allocation true sysC1 16 32).2.1.mem 16 = 5 ∧
    ¬ (nk_carat_move_allocation true sysC1 16 32).2.1.mem 32 = memC1 16 := by
  decide

/-- C2: after the escape patch pass over a duplicate-free escape set, a slot
whose prior value aliased the source range holds the target-based
translation of that value, and every other slot is unchanged. -/
theorem c2_escape_patch_correct (entry : AllocEntry) (tgt : Nat)
    (mem : Nat → Nat) (e : Nat) (hnd : entry.allocToEscapeMap.Nodup)
    (he : e ∈ entry.allocToEscapeMap) :
    (carat_patch_escapes entry tgt mem).1 e =
      if entry.pointer ≤ mem e ∧ mem e < entry.pointer + entry.length
      then tgt + (mem e - entry.pointer) else mem e :=
  carat_patch_escapes_slot entry tgt mem e hnd he

/-- Entry for the C2 witness: base 16, length 8, escape slots 40 and 41. -/
def entryC2 : AllocEntry := ⟨16, 8, [40, 41]⟩

/-- Memory for the C2 witness: slot 40 holds an aliasing value, slot 41 a
foreign one. -/
def memC2 : Nat → Nat := fun a => if a = 40 then 18 else if a = 41 then 99 else 0

/-- Witness for C2 at a concrete input: slot 40 holding 18 inside [16, 24)
is rewritten to 32 + 2 = 34 by a move targeting base 32. -/
theorem c2_escape_patch_correct_witness :
    (carat_patch_escapes entryC2 32 memC2).1 40 = 34 :=
  (c2_escape_patch_correct entryC2 32 memC2 40 (by decide) (by decide)).trans
    (by decide)

/-- C3: on every thread snapshot the pass rewrites each of the fifteen
tracked general-purpose registers exactly when its value lies in
[source, source + length), replacing it by target + offset, and never
modifies rsp or rip; and the thread pass applies this to every live
thread. -/
theorem c3_register_patch_correct :
    (∀ (st : move_alloc_state) (r : Regs),
      ((handle_thread st r).1.r15 =
        if st.allocationToMove ≤ r.r15 ∧ r.r15 < st.allocationToMove + st.length
        then st.allocationTarget + (r.r15 - st.allocationToMove) else r.r15) ∧
      ((handle_thread st r).1.r14 =
        if st.allocationToMove ≤ r.r14 ∧ r.r14 < st.allocationToMove + st.length
        then st.allocationTarget + (r.r14 - st.allocationToMove) else r.r14) ∧
      ((handle_thread st r).1.r13 =
        if st.allocationToMove ≤ r.r13 ∧ r.r13 < st.allocationToMove + st.length
        then st.allocationTarget + (r.r13 - st.allocationToMove) else r.r13) ∧
      ((handle_thread st r).1.r12 =
        if st.allocationToMove ≤ r.r12 ∧ r.r12 < st.allocationToMove + st.length
        then st.allocationTarget + (r.r12 - st.allocationToMove) else r.r12) ∧
      ((handle_thread st r).1.r11 =
        if st.allocationToMove ≤ r.r11 ∧ r.r11 < st.allocationToMove + st.length
        then st.allocationTarget + (r.r11 - st.allocationToMove) else r.r11) ∧
      ((handle_thread st r).1.r10 =
        if st.allocationToMove ≤ r.r10 ∧ r.r10 < st.allocationToMove + st.length
        then st.allocationTarget + (r.r10 - st.allocationToMove) else r.r10) ∧
      ((handle_thread st r).1.r9 =
        if st.allocationToMove ≤ r.r9 ∧ r.r9 < st.allocationToMove + st.length
        then st.allocationTarget + (r.r9 - st.allocationToMove) else r.r9) ∧
      ((handle_thread st r).1.r8 =
        if st.allocationToMove ≤ r.r8 ∧ r.r8 < st.allocationToMove + st.length
        then st.allocationTarget + (r.r8 - st.allocationToMove) else r.r8) ∧
      ((handle_thread st r).1.rbp =
        if st.allocationToMove ≤ r.rbp ∧ r.rbp < st.allocationToMove + st.length
        then st.allocationTarget + (r.rbp - st.allocationToMove) else r.rbp) ∧
      ((handle_thread st r).1.rdi =
        if st.allocationToMove ≤ r.rdi ∧ r.rdi < st.allocationToMove + st.length
        then st.allocationTarget + (r.rdi - st.allocationToMove) else r.rdi) ∧
      ((handle_thread st r).1.rsi =
        if st.allocationToMove ≤ r.rsi ∧ r.rsi < st.allocationToMove + st.length
        then st.allocationTarget + (r.rsi - st.allocationToMove) else r.rsi) ∧
      ((handle_thread st r).1.rdx =
        if st.allocationToMove ≤ r.rdx ∧ r.rdx < st.allocationToMove + st.length
        then st.allocationTarget + (r.rdx - st.allocationToMove) else r.rdx) ∧
      ((handle_thread st r).1.rcx =
        if st.allocationToMove ≤ r.rcx ∧ r.rcx < st.allocationToMove + st.length
        then st.allocationTarget + (r.rcx - st.allocationToMove) else r.rcx) ∧
      ((handle_thread st r).1.rbx =
        if st.allocationToMove ≤ r.rbx ∧ r.rbx < st.allocationToMove + st.length
        then st.allocationTarget + (r.rbx - st.allocationToMove) else r.rbx) ∧
      ((handle_thread st r).1.rax =
        if st.allocationToMove ≤ r.rax ∧ r.rax < st.allocationToMove + st.length
        then st.allocationTarget + (r.rax - st.allocationToMove) else r.rax) ∧
      (handle_thread st r).1.rsp = r.rsp ∧
      (handle_thread st r).1.rip = r.rip)
    ∧ (∀ (ts : List Regs) (st : move_alloc_state),
        (runThreads ts st).1 = ts.map (fun r => (handle_thread st r).1)) := by
  refine ⟨fun st r => ?_, runThreads_regs⟩
  exact ⟨rfl, rfl, rfl, rfl, rfl, rfl, rfl, rfl, rfl, rfl, rfl, rfl, rfl, rfl,
    rfl, rfl, rfl⟩

/-- C5: once the world is successfully stopped, every path through
`nk_carat_move_allocation` — success, allocation-not-found, escape-patch
failure and thread-patch failure branches alike — performs exactly one
`nk_sched_start_world` before returning. -/
theorem c5_start_world_exactly_once (s : Sys) (src tgt : Nat) :
    (nk_carat_move_allocation true s src tgt).2.2 = 1 := by
  unfold nk_carat_move_allocation moveAllocationSteps moveAllocAfterThreads
  rw [if_pos rfl]
  cases hfind : findAllocEntry s.dir src with
  | none => rfl
  | some entry =>
    dsimp only
    split_ifs <;> rfl

/-- C7: when the source address has no directory entry, the stopped-world
call fails with -1, leaves the memory, directory and thread snapshots
exactly as they were, and still resumes the world exactly once. -/
theorem c7_not_found_noop (s : Sys) (src tgt : Nat)
    (h : findAllocEntry s.dir src = none) :
    nk_carat_move_allocation true s src tgt = (-1, s, 1) := by
  unfold nk_carat_move_allocation moveAllocationSteps
  rw [if_pos rfl, h]

/-- World for the C7 witness: empty directory. -/
def sysC7 : Sys := ⟨fun a => a, [], []⟩

/-- Witness for C7: moving untracked address 57005 to 48879 over an empty
directory fails and changes nothing. -/
theorem c7_not_found_noop_witness :
    nk_carat_move_allocation true sysC7 57005 48879 = (-1, sysC7, 1) :=
  c7_not_found_noop sysC7 57005 48879 rfl

/-- World for the C4 counterexample: one tracked allocation at base 24. -/
def sysC4 : Sys := ⟨fun a => a, [(24, ⟨24, 4, []⟩)], []⟩

/-- C4 counterexample: the claim quantifies over every successful move, but
for the successful degenerate move with source = target = 24 the directory
ends with zero entries keyed at the target, not exactly one —
`carat_update_entry` inserts the new pair and then removes the (same) old
key. -/
theorem c4_rekey_fails_at_self_move :
    (nk_carat_move_allocation true sysC4 24 24).1 = 0 ∧
    dirCountKey (nk_carat_move_allocation true sysC4 24 24).2.1.dir 24 = 0 ∧
    findAllocEntry (nk_carat_move_allocation true sysC4 24 24).2.1.dir 24 =
      none := by
  decide

/-- C4 (amended to source distinct from target): after a successful move the
directory has no entry keyed at the source and exactly one entry keyed at
the target, carrying the original length and the original escape set. -/
theorem c4_rekey_of_source_ne_target (s : Sys) (src tgt : Nat)
    (entry : AllocEntry) (hfind : findAllocEntry s.dir src = some entry)
    (hptr : entry.pointer = src) (hne : src ≠ tgt) :
    (nk_carat_move_allocation true s src tgt).1 = 0 ∧
    findAllocEntry (nk_carat_move_allocation true s src tgt).2.1.dir src =
      none ∧
    dirCountKey (nk_carat_move_allocation true s src tgt).2.1.dir tgt = 1 ∧
    findAllocEntry (nk_carat_move_allocation true s src tgt).2.1.dir tgt =
      some ⟨tgt, entry.length, entry.allocToEscapeMap⟩ := by
  have hptr' : entry.pointer ≠ tgt := by rw [hptr]; exact hne
  rw [move_success_eq s src tgt entry hfind]
  refine ⟨rfl, ?_, ?_, ?_⟩
  · rw [← hptr]
    exact carat_update_entry_find_old s.dir entry tgt
  · exact carat_update_entry_count_new s.dir entry tgt hptr'
  · exact carat_update_entry_find_new s.dir entry tgt hptr'

/-- Entry for the C4 witness. -/
def entryC4 : AllocEntry := ⟨16, 4, [55]⟩

/-- World for the C4 witness. -/
def sysC4w : Sys := ⟨fun a => a, [(16, entryC4)], []⟩

/-- Witness for the amended C4: a concrete successful move from base 16 to
base 32 leaves exactly one directory entry keyed at 32. -/
theorem c4_rekey_of_source_ne_target_witness :
    dirCountKey (nk_carat_move_allocation true sysC4w 16 32).2.1.dir 32 = 1 :=
  (c4_rekey_of_source_ne_target sysC4w 16 32 entryC4 (by decide) rfl
    (by decide)).2.2.1

/-- Entry for the C6 witness and failure-path theorem examples. -/
def entryC6 : AllocEntry := ⟨16, 8, [40]⟩

/-- World for the C6 witness: escape slot 40 holds the aliasing value 18. -/
def sysC6 : Sys := ⟨fun a => if a = 40 then 18 else 0, [(16, entryC6)], []⟩

/-- C6: on the branch where the shared failure flag is observed set after
the full thread iteration (patching.c lines 91-94; the flag value is the
explicit last argument of `moveAllocAfterThreads`, since in this source
`handle_thread` never actually sets it), the call aborts with -1, the byte
copy and directory update never run — the directory still holds the entry
keyed at the source — and the already-rewritten escape slots keep their
patched values. -/
theorem c6_thread_patch_failure_no_rollback (s : Sys) (src tgt : Nat)
    (entry : AllocEntry) (hfind : findAllocEntry s.dir src = some entry) :
    (moveAllocAfterThreads
      ⟨(carat_patch_escapes entry tgt s.mem).1, s.dir,
        (runThreads s.threads ⟨src, tgt, entry.length, false⟩).1⟩
      entry src tgt true).1 = -1 ∧
    (moveAllocAfterThreads
      ⟨(carat_patch_escapes entry tgt s.mem).1, s.dir,
        (runThreads s.threads ⟨src, tgt, entry.length, false⟩).1⟩
      entry src tgt true).2.1.mem = (carat_patch_escapes entry tgt s.mem).1 ∧
    (moveAllocAfterThreads
      ⟨(carat_patch_escapes entry tgt s.mem).1, s.dir,
        (runThreads s.threads ⟨src, tgt, entry.length, false⟩).1⟩
      entry src tgt true).2.1.dir = s.dir ∧
    findAllocEntry (moveAllocAfterThreads
      ⟨(carat_patch_escapes entry tgt s.mem).1, s.dir,
        (runThreads s.threads ⟨src, tgt, entry.length, false⟩).1⟩
      entry src tgt true).2.1.dir src = some entry ∧
    (moveAllocAfterThreads
      ⟨(carat_patch_escapes entry tgt s.mem).1, s.dir,
        (runThreads s.threads ⟨src, tgt, entry.length, false⟩).1⟩
      entry src tgt true).2.2 = 1 :=
  ⟨rfl, rfl, rfl, hfind, rfl⟩

/-- Witness for C6: on the concrete world, escape slot 40 has already been
rewritten from 18 to 34 when the failure is observed, and the failing exit
still leaves the directory exactly as it was. -/
theorem c6_thread_patch_failure_no_rollback_witness :
    (carat_patch_escapes entryC6 32 sysC6.mem).1 40 = 34 ∧
    (moveAllocAfterThreads
      ⟨(carat_patch_escapes entryC6 32 sysC6.mem).1, sysC6.dir,
        (runThreads sysC6.threads ⟨16, 32, entryC6.length, false⟩).1⟩
      entryC6 16 32 true).2.1.dir = sysC6.dir :=
  ⟨by decide,
    (c6_thread_patch_failure_no_rollback sysC6 16 32 entryC6 (by decide)).2.2.1⟩

/-- Register snapshot for the C8 failing input: rax points into the
allocation, rsp and rip hold sentinels. -/
def regsC8 : Regs := ⟨0, 0, 0, 0, 0, 0, 0, 0, 0, 0, 0, 0, 0, 0, 20, 999, 888⟩

/-- Memory for the C8 failing input: escape slot 40 holds the aliasing
value 18; every other cell holds 100 plus its address. -/
def memC8 : Nat → Nat := fun a => if a = 40 then 18 else 100 + a

/-- World for the C8 failing input: allocation at base 16 of length 8 with
escape slot 40, one live thread. -/
def sysC8 : Sys := ⟨memC8, [(16, ⟨16, 8, [40]⟩)], [regsC8]⟩

/-- C8: the degenerate move with source = target = 16 succeeds and indeed
leaves the escape slot, the thread registers and the allocation cells
unchanged, but the directory entry for base 16 is destroyed rather than
kept: `carat_update_entry` adds the new pair keyed 16 and then removes key
16, so the spec's requirement that the entry content survives is violated
by the code. -/
theorem c8_degenerate_move_directory_bug :
    (nk_carat_move_allocation true sysC8 16 16).1 = 0 ∧
    (nk_carat_move_allocation true sysC8 16 16).2.1.mem 40 = 18 ∧
    (nk_carat_move_allocation true sysC8 16 16).2.1.mem 17 = 117 ∧
    (nk_carat_move_allocation true sysC8 16 16).2.1.threads = [regsC8] ∧
    findAllocEntry (nk_carat_move_allocation true sysC8 16 16).2.1.dir 16 =
      none ∧
    dirCountKey (nk_carat_move_allocation true sysC8 16 16).2.1.dir 16 = 0 := by
  decide

/-- C9: the re-keyed record produced by a successful relocation to a fresh
target carries the original, unchanged length, and its base is exactly the
target address. -/
theorem c9_length_immutable_base_rekeyed (s : Sys) (src tgt : Nat)
    (entry e2 : AllocEntry) (hfind : findAllocEntry s.dir src = some entry)
    (hptr : entry.pointer = src) (hne : src ≠ tgt)
    (h2 : findAllocEntry (nk_carat_move_allocation true s src tgt).2.1.dir tgt =
      some e2) :
    e2.length = entry.length ∧ e2.pointer = tgt := by
  have hptr' : entry.pointer ≠ tgt := by rw [hptr]; exact hne
  rw [move_success_eq s src tgt entry hfind] at h2
  dsimp only at h2
  rw [carat_update_entry_find_new s.dir entry tgt hptr'] at h2
  injection h2 with h3
  rw [← h3]
  exact ⟨rfl, rfl⟩

/-- Entry for the C9 witness. -/
def entryC9 : AllocEntry := ⟨16, 4, [55]⟩

/-- World for the C9 witness. -/
def sysC9 : Sys := ⟨fun a => a, [(16, entryC9)], []⟩

/-- Witness for C9: the record found at target base 32 after the concrete
move carries length 4 — the original length — and base 32. -/
theorem c9_length_immutable_base_rekeyed_witness :
    (AllocEntry.mk 32 4 [55]).length = entryC9.length ∧
    (AllocEntry.mk 32 4 [55]).pointer = 32 :=
  c9_length_immutable_base_rekeyed sysC9 16 32 entryC9 ⟨32, 4, [55]⟩
    (by decide) rfl (by decide) (by decide)

/-- C10: `carat_patch_escapes` unconditionally returns 0, `handle_thread`
returns the shared move state — failure flag included — untouched, the
whole thread pass therefore leaves the flag as it began, and consequently
every stopped-world call whose directory lookup succeeds returns 0: the
escape-patch and thread-patch abort branches are unreachable. -/
theorem c10_unreachable_failure_always_success :
    (∀ (entry : AllocEntry) (tgt : Nat) (mem : Nat → Nat),
      (carat_patch_escapes entry tgt mem).2 = 0)
    ∧ (∀ (st : move_alloc_state) (r : Regs), (handle_thread st r).2 = st)
    ∧ (∀ (ts : List Regs) (st : move_alloc_state), (runThreads ts st).2 = st)
    ∧ (∀ (s : Sys) (src tgt : Nat) (entry : AllocEntry),
        findAllocEntry s.dir src = some entry →
        (nk_carat_move_allocation true s src tgt).1 = 0) := by
  refine ⟨fun _ _ _ => rfl, fun _ _ => rfl, runThreads_state, ?_⟩
  intro s src tgt entry hfind
  rw [move_success_eq s src tgt entry hfind]

/-- World for the C10 witness. -/
def sysC10 : Sys := ⟨fun a => a, [(16, ⟨16, 4, []⟩)], []⟩

/-- Witness for C10: a concrete stopped-world move whose lookup succeeds
returns 0. -/
theorem c10_unreachable_failure_always_success_witness :
    (nk_carat_move_allocation true sysC10 16 32).1 = 0 :=
  c10_unreachable_failure_always_success.2.2.2 sysC10 16 32 ⟨16, 4, []⟩
    (by decide)

end CaratMove
